import Mathlib

/-!
Shallow embedding of the R710 netdata fan-control script (ctrl.py) and a
verification of its control-loop and management-channel behaviour.

Python floats are modelled as exact rationals, Python int() as truncation
toward zero, exceptions as Option/Except, and the external collaborators
(power monitor, subprocess channel, environment variables) as explicit
inputs.
-/

namespace R710

/-- Python int() applied to a float: truncation toward zero. -/
def pyInt (q : ℚ) : ℤ := if q < 0 then ⌈q⌉ else ⌊q⌋

/-- numpy ndarray.any(): true iff some element is truthy (nonzero). -/
def npAny (d : List ℚ) : Bool := d.any (fun x => decide (x ≠ 0))

/-- Python numeric coercion of a bool when compared with a number:
True is 1, False is 0.  Used to embed the source test (data.any() greater
than 68) exactly as written. -/
def pyBoolToRat (b : Bool) : ℚ := if b then 1 else 0

/-- Controller state: the fields of class ctrl set in ctrl.init
(src/ctrl.py lines 158-167). -/
structure Ctrl where
  data : List ℚ
  prev : ℚ
  thrend : List ℚ
  curfan : ℚ
  curpower : ℚ
  target : ℚ
  cpu_power_level : ℚ
deriving DecidableEq

/-- Initial controller state (ctrl.init): data = numpy.zeros(8), prev = 0,
thrend = eight zeros, curfan = 10, curpower = 0, target = 55,
cpu_power_level = 0. -/
def ctrlInit : Ctrl :=
  { data := [0, 0, 0, 0, 0, 0, 0, 0]
    prev := 0
    thrend := [0, 0, 0, 0, 0, 0, 0, 0]
    curfan := 10
    curpower := 0
    target := 55
    cpu_power_level := 0 }

/-- ctrl.inject (lines 169-173).  The power reading returned by
Server.get_power_level is an external input, passed here as a parameter. -/
def inject (s : Ctrl) (d : List ℚ) (cpu_util : ℚ) (powerLevel : ℚ) : Ctrl :=
  { s with
    curpower := powerLevel
    cpu_power_level := min (max 30 (cpu_util * 1.6)) 160
    data := d }

/-- Line 182: avgtemp = sum(self.data) / len(self.data). -/
def avgtemp (s : Ctrl) : ℚ := s.data.sum / (s.data.length : ℚ)

/-- Line 183: tdelta = sum(self.thrend) / len(self.thrend). -/
def tdelta (s : Ctrl) : ℚ := s.thrend.sum / (s.thrend.length : ℚ)

/-- Line 192: delta = avgtemp - self.target. -/
def delta (s : Ctrl) : ℚ := avgtemp s - s.target

/-- Lines 184 and 195-196: finetune = 2, set to 1 when abs(delta) exceeds 5. -/
def finetune (s : Ctrl) : ℚ := if 5 < |delta s| then 1 else 2

/-- Line 198: delta_adj = min(abs(delta - tdelta) / finetune, 3). -/
def delta_adj (s : Ctrl) : ℚ := min (|delta s - tdelta s| / finetune s) 3

/-- Lines 200-203: curfan grows by delta_adj when delta is positive,
otherwise shrinks by it. -/
def fanAfterTemp (s : Ctrl) : ℚ :=
  if 0 < delta s then s.curfan + delta_adj s else s.curfan - delta_adj s

/-- Line 206: rest_power = min(0, curpower - 50 - cpu_power_level). -/
def rest_power (s : Ctrl) : ℚ := min 0 (s.curpower - 50 - s.cpu_power_level)

/-- Line 207: curfan += rest_power / 10, applied after the temperature
branch. -/
def fanBeforeClamp (s : Ctrl) : ℚ := fanAfterTemp s + rest_power s / 10

/-- Line 177: min(max(curfan, 1), 100). -/
def clampFan (x : ℚ) : ℚ := min (max x 1) 100

/-- ctrl.run (lines 176-179): clamp curfan into [1, 100], store it back, and
dispatch int(curfan) to set_fan_speed_manual. -/
def run (s : Ctrl) : Ctrl × ℤ :=
  ({ s with curfan := clampFan s.curfan }, pyInt (clampFan s.curfan))

/-- Body of ctrl.step along the non-emergency branch (lines 182-213):
temperature adjustment, power-headroom term, run(), then prev and thrend
updates (append delta, pop the front entry). -/
def stepCore (s : Ctrl) : Ctrl × ℤ :=
  let r := run { s with curfan := fanBeforeClamp s }
  ({ r.1 with prev := avgtemp s, thrend := (s.thrend ++ [delta s]).tail }, r.2)

/-- ctrl.step (lines 181-213).  The branch test on line 187 is the source
expression exactly: self.data.any() compared with 68, with Python coercing
the boolean to 0 or 1.  Were that branch ever taken, line 212 would read the
local variable delta which is only bound in the else branch, raising
UnboundLocalError; that outcome is modelled as none. -/
def step (s : Ctrl) : Option (Ctrl × ℤ) :=
  if 68 < pyBoolToRat (npAny s.data) then none else some (stepCore s)

/-- One call of the controller API: either inject (with its external power
reading) or step. -/
inductive Op
  | inj (d : List ℚ) (cpu_util : ℚ) (powerLevel : ℚ)
  | stp
deriving DecidableEq

/-- Apply one controller call to a state. -/
def execOp (s : Ctrl) : Op → Option Ctrl
  | .inj d u pw => some (inject s d u pw)
  | .stp => (step s).map Prod.fst

/-- Apply a sequence of controller calls. -/
def execOps (s : Ctrl) : List Op → Option Ctrl
  | [] => some s
  | o :: rest => (execOp s o).bind (fun s' => execOps s' rest)

/-- An op keeps the average injected temperature at or below the target t. -/
def opBelowTarget (t : ℚ) : Op → Bool
  | .inj d _ _ => decide (d.sum / (d.length : ℚ) ≤ t)
  | .stp => true

/-- Whether a character list begins with the four characters of " RPM",
the lookahead of the regex in Server.get_fan_speed (line 151). -/
def startsWithRPM : List Char → Bool
  | a :: b :: c :: d :: _ => a == ' ' && b == 'R' && c == 'P' && d == 'M'
  | _ => false

/-- Scanner for the regex findall of line 151: digit runs of length at least
3 whose following text begins with " RPM".  The first argument accumulates
the current digit run in reverse.  Matches are non-overlapping and scanning
resumes at the lookahead, exactly as re.findall does. -/
def findAux : List Char → List Char → List (List Char)
  | _, [] => []
  | run, c :: rest =>
    if c.isDigit then findAux (c :: run) rest
    else
      if 3 ≤ run.length && startsWithRPM (c :: rest) then
        run.reverse :: findAux [] rest
      else findAux [] rest

/-- All tokens produced by re.findall for the fan-RPM pattern on line 151. -/
def findRPMTokens (out : List Char) : List (List Char) := findAux [] out

/-- Python string comparison: lexicographic by code point, a proper
initial segment is smaller. -/
def pyStrLt : List Char → List Char → Bool
  | _, [] => false
  | [], _ :: _ => true
  | a :: as, b :: bs => if a < b then true else if b < a then false else pyStrLt as bs

/-- Python max over a list of strings: the first element, replaced whenever
a later element compares strictly greater as a string. -/
def pyMaxStr : List (List Char) → Option (List Char)
  | [] => none
  | x :: xs => some (xs.foldl (fun m y => if pyStrLt m y then y else m) x)

/-- Python int() on a decimal digit string. -/
def digitsToNat (l : List Char) : ℕ := l.foldl (fun n c => 10 * n + (c.toNat - 48)) 0

/-- Server.get_fan_speed (lines 145-154): findall the RPM tokens, take
Python max of the resulting list of strings, convert with int(); the list
is replaced by a list holding the number 0 when no token matched. -/
def get_fan_speed (out : List Char) : ℕ :=
  match pyMaxStr (findRPMTokens out) with
  | none => 0
  | some m => digitsToNat m

/-- Outcome of the subprocess.check_output call made by IpmiMessage.send:
either captured output, a nonzero exit (CalledProcessError), or a missing
ipmitool executable (FileNotFoundError). -/
inductive SubprocResult
  | success (out : List Char)
  | calledProcessError
  | fileNotFoundError
deriving DecidableEq

/-- Python exceptions that can escape the command wrapper. -/
inductive PyExc
  | attributeError
  | fileNotFoundError
  | unboundLocalError
deriving DecidableEq

/-- IpmiMessage.send followed by the .out property read, as Server.do_cmd
performs them (lines 31-39 and 78-85).  send catches CalledProcessError,
prints it and builds an unused message string, but never assigns the out
attribute, so the .out read that follows raises AttributeError; a
FileNotFoundError from a missing ipmitool is not caught at all and
propagates directly. -/
def sendAndOut : SubprocResult → Except PyExc (List Char)
  | .success o => .ok o
  | .calledProcessError => .error .attributeError
  | .fileNotFoundError => .error .fileNotFoundError

/-- ctrl.step with the fan-dispatch channel outcome made explicit: the
set_fan_speed_manual call inside run goes through do_cmd, so any error from
sendAndOut propagates out of step uncaught (main has no handler around
c.step()).  On a successful dispatch the emergency branch would still die
on the unbound local delta. -/
def stepD (s : Ctrl) (r : SubprocResult) : Except PyExc (Ctrl × ℤ) :=
  match sendAndOut r with
  | .error e => .error e
  | .ok _ =>
    if 68 < pyBoolToRat (npAny s.data) then .error .unboundLocalError
    else .ok (stepCore s)

/-- The three IDRAC environment variables consulted by Server.init. -/
structure IdracEnv where
  idrac_host : Option String
  idrac_username : Option String
  idrac_password : Option String
deriving DecidableEq

/-- Server.init credential resolution (lines 54-72): each explicit
parameter falls back to its environment variable, username and password
further default to root and calvin, and a ValueError (modelled as none) is
raised when any of the three is still None. -/
def serverInit (host username password : Option String) (env : IdracEnv) :
    Option (String × String × String) :=
  let host2 := match host with
    | none => env.idrac_host
    | some h => some h
  let username2 := match username with
    | none => some (env.idrac_username.getD "root")
    | some u => some u
  let password2 := match password with
    | none => some (env.idrac_password.getD "calvin")
    | some p => some p
  match host2, username2, password2 with
  | some h, some u, some p => some (h, u, p)
  | _, _, _ => none

/-- State for C1: every core at 70 degrees, well above the 68-degree
emergency threshold; power term arranged to vanish. -/
def c1State : Ctrl :=
  { data := [70, 70, 70, 70, 70, 70, 70, 70]
    prev := 55
    thrend := [0, 0, 0, 0, 0, 0, 0, 0]
    curfan := 10
    curpower := 80
    target := 55
    cpu_power_level := 30 }

/-- State for C2: same temperatures as the spec example but with a power
reading 20 W below the passive-plus-CPU estimate. -/
def c2Drain : Ctrl :=
  { data := [56, 56, 56, 56, 56, 56, 56, 56]
    prev := 55
    thrend := [0, 0, 0, 0, 0, 0, 0, 0]
    curfan := 10
    curpower := 60
    target := 55
    cpu_power_level := 30 }

/-- The exact state of spec Example 1 (claim C6). -/
def c6State : Ctrl :=
  { data := [56, 56, 56, 56, 56, 56, 56, 56]
    prev := 55
    thrend := [0, 0, 0, 0, 0, 0, 0, 0]
    curfan := 10
    curpower := 80
    target := 55
    cpu_power_level := 30 }

/-- Start state for the C3 witness: fan already at the lower clamp. -/
def c3Start : Ctrl := { ctrlInit with curfan := 1 }

/-- Two cool cycles for the C3 witness. -/
def c3Ops : List Op := [Op.inj [40, 40] 20 60, Op.stp]

/-- The state after the inject of the C3 witness. -/
def c3Mid : Ctrl :=
  { data := [40, 40]
    prev := 0
    thrend := [0, 0, 0, 0, 0, 0, 0, 0]
    curfan := 1
    curpower := 60
    target := 55
    cpu_power_level := 32 }

/-- The state after both ops of the C3 witness. -/
def c3End : Ctrl :=
  { data := [40, 40]
    prev := 40
    thrend := [0, 0, 0, 0, 0, 0, 0, -15]
    curfan := 1
    curpower := 60
    target := 55
    cpu_power_level := 32 }

/-- The state after one step from the initial state (C5 witness). -/
def c5End : Ctrl :=
  { data := [0, 0, 0, 0, 0, 0, 0, 0]
    prev := 0
    thrend := [0, 0, 0, 0, 0, 0, 0, -55]
    curfan := 2
    curpower := 0
    target := 55
    cpu_power_level := 0 }

/-- A fan-sensor response holding a 900 RPM and a 1000 RPM reading. -/
def c8Out : List Char := "Fan1 900 RPM Fan2 1000 RPM".toList

/-- State for the C7 witness: average temperature exactly on target. -/
def c7At : Ctrl :=
  { data := [55, 55, 55, 55, 55, 55, 55, 55]
    prev := 55
    thrend := [0, 0, 0, 0, 0, 0, 0, 0]
    curfan := 10
    curpower := 80
    target := 55
    cpu_power_level := 30 }

/-- The source test on line 187 compares a bool coerced to 0 or 1 with 68,
so it can never hold. -/
theorem emergency_cond_false (d : List ℚ) : ¬ (68 : ℚ) < pyBoolToRat (npAny d) := by
  cases hb : npAny d <;> simp [pyBoolToRat, hb]

/-- step always takes the non-emergency branch. -/
theorem step_eq_some (s : Ctrl) : step s = some (stepCore s) := by
  unfold step
  exact if_neg (emergency_cond_false s.data)

/-- The finetune divisor is 1 or 2, hence positive. -/
theorem finetune_pos (s : Ctrl) : 0 < finetune s := by
  unfold finetune
  split <;> norm_num

/-- The per-cycle temperature adjustment is nonnegative. -/
theorem delta_adj_nonneg (s : Ctrl) : 0 ≤ delta_adj s :=
  le_min (div_nonneg (abs_nonneg _) (finetune_pos s).le) (by norm_num)

theorem one_le_clampFan (x : ℚ) : 1 ≤ clampFan x :=
  le_min (le_max_right _ _) (by norm_num)

theorem clampFan_le_hundred (x : ℚ) : clampFan x ≤ 100 := min_le_right _ _

theorem clampFan_mono {a b : ℚ} (hab : a ≤ b) : clampFan a ≤ clampFan b :=
  min_le_min (max_le_max hab le_rfl) le_rfl

theorem pyInt_mono_of_nonneg {a b : ℚ} (ha : 0 ≤ a) (hab : a ≤ b) :
    pyInt a ≤ pyInt b := by
  unfold pyInt
  rw [if_neg (not_lt.mpr ha), if_neg (not_lt.mpr (ha.trans hab))]
  exact Int.floor_mono hab

theorem tail_append_singleton {α : Type} (l : List α) (a : α) (h : l ≠ []) :
    (l ++ [a]).tail = l.tail ++ [a] := by
  cases l with
  | nil => exact absurd rfl h
  | cons x xs => rfl

/-- The trend-buffer length is invariant under any sequence of calls. -/
theorem execOps_thrend_length :
    ∀ ops (s s' : Ctrl), execOps s ops = some s' → s'.thrend.length = s.thrend.length := by
  intro ops
  induction ops with
  | nil =>
    intro s s' hex
    obtain rfl := Option.some.inj hex
    rfl
  | cons op rest ih =>
    intro s s' hex
    cases op with
    | inj d u pw =>
      have hex2 : execOps (inject s d u pw) rest = some s' := by
        simpa [execOps, execOp] using hex
      simpa [inject] using ih _ _ hex2
    | stp =>
      have hop : execOp s Op.stp = some (stepCore s).1 := by
        simp [execOp, step_eq_some]
      have hex2 : execOps (stepCore s).1 rest = some s' := by
        simpa [execOps, hop] using hex
      have hlen : (stepCore s).1.thrend.length = s.thrend.length := by
        show ((s.thrend ++ [delta s]).tail).length = s.thrend.length
        simp
      rw [ih _ _ hex2, hlen]

/-- Evaluation of the step of the C3 witness inject state. -/
theorem c3Mid_eval : inject c3Start [40, 40] 20 60 = c3Mid := by
  norm_num [inject, c3Start, ctrlInit, c3Mid]

/-- Evaluation of stepCore at the C3 witness mid state. -/
theorem c3Step_eval : stepCore c3Mid = (c3End, 1) := by
  norm_num [stepCore, run, clampFan, fanBeforeClamp, fanAfterTemp, rest_power, delta_adj,
    finetune, delta, tdelta, avgtemp, pyInt, c3Mid, c3End, abs_of_nonneg, abs_of_nonpos]

/-- Evaluation of the two C3 witness cycles. -/
theorem c3Ops_eval : execOps c3Start c3Ops = some c3End := by
  have h1 : execOps c3Start c3Ops = execOps c3Mid [Op.stp] := by
    show execOps (inject c3Start [40, 40] 20 60) [Op.stp] = execOps c3Mid [Op.stp]
    rw [c3Mid_eval]
  rw [h1]
  show ((step c3Mid).map Prod.fst).bind (fun s => execOps s []) = some c3End
  rw [step_eq_some, c3Step_eval]
  rfl

/-- Evaluation of stepCore at the initial state. -/
theorem c5Step_eval : stepCore ctrlInit = (c5End, 2) := by
  norm_num [stepCore, run, clampFan, fanBeforeClamp, fanAfterTemp, rest_power, delta_adj,
    finetune, delta, tdelta, avgtemp, pyInt, ctrlInit, c5End, abs_of_nonneg, abs_of_nonpos]

/-- Evaluation of one step from the initial state. -/
theorem c5Ops_eval : execOps ctrlInit [Op.stp] = some c5End := by
  show ((step ctrlInit).map Prod.fst).bind (fun s => execOps s []) = some c5End
  rw [step_eq_some, c5Step_eval]
  rfl

/-- C1: the claimed emergency behaviour (max core temperature above 68
forces a plus-5 ramp and skips the proportional path) does not happen in
the code.  At a state with every core at 70 the branch test, which compares
a boolean coerced to 0 or 1 with 68, is still false, and step dispatches 13
via the proportional path instead of the claimed clamp(10 + 5) = 15. -/
theorem c1_emergency_check_inert :
    (70 : ℚ) ∈ c1State.data ∧ (68 : ℚ) < 70 ∧
    ¬ (68 : ℚ) < pyBoolToRat (npAny c1State.data) ∧
    (step c1State).map Prod.snd = some 13 ∧
    pyInt (clampFan (c1State.curfan + 5)) = 15 ∧
    (13 : ℤ) ≠ 15 := by
  refine ⟨by norm_num [c1State], by norm_num, emergency_cond_false _, ?_, ?_, by norm_num⟩
  · rw [step_eq_some]
    norm_num [stepCore, run, clampFan, fanBeforeClamp, fanAfterTemp, rest_power, delta_adj,
      finetune, delta, tdelta, avgtemp, pyInt, c1State, abs_of_nonneg, abs_of_nonpos]
  · norm_num [pyInt, clampFan, c1State]

/-- C2: the power-headroom term is min(0, ...)/10, so it can only lower the
fan.  With the temperature pipeline alone giving 10.5 percent (dispatch 10),
a power reading of 60 W against a 30 W CPU estimate makes rest_power = -20
and the dispatched value drops to 8: the correction is negative, not
additive and nonnegative as claimed. -/
theorem c2_power_term_reduces_dispatch :
    fanAfterTemp c2Drain = 21 / 2 ∧
    pyInt (clampFan (fanAfterTemp c2Drain)) = 10 ∧
    rest_power c2Drain = -20 ∧
    (step c2Drain).map Prod.snd = some 8 ∧
    (8 : ℤ) < 10 := by
  have hft : fanAfterTemp c2Drain = 21 / 2 := by
    norm_num [fanAfterTemp, delta_adj, finetune, delta, tdelta, avgtemp, c2Drain,
      abs_of_nonneg, abs_of_nonpos]
  refine ⟨hft, ?_, by norm_num [rest_power, c2Drain], ?_, by norm_num⟩
  · rw [hft]
    norm_num [pyInt, clampFan]
  · rw [step_eq_some]
    norm_num [stepCore, run, clampFan, fanBeforeClamp, fanAfterTemp, rest_power, delta_adj,
      finetune, delta, tdelta, avgtemp, pyInt, c2Drain, abs_of_nonneg, abs_of_nonpos]

/-- C3: after every step the stored fan percentage lies in [1, 100], and
from a state at the lower clamp with all (current and injected) average
temperatures at or below target, any number of further cycles leaves the
fan pinned at 1. -/
theorem c3_fan_percent_in_range :
    (∀ s p, step s = some p → 1 ≤ p.1.curfan ∧ p.1.curfan ≤ 100) ∧
    (∀ ops s s', s.curfan = 1 → avgtemp s ≤ s.target →
      ops.all (opBelowTarget s.target) = true →
      execOps s ops = some s' → s'.curfan = 1) := by
  constructor
  · intro s p hp
    rw [step_eq_some] at hp
    obtain rfl := Option.some.inj hp
    exact ⟨one_le_clampFan _, clampFan_le_hundred _⟩
  · intro ops
    induction ops with
    | nil =>
      intro s s' h1 _ _ hex
      obtain rfl := Option.some.inj hex
      exact h1
    | cons op rest ih =>
      intro s s' h1 h2 h3 hex
      rw [List.all_cons, Bool.and_eq_true] at h3
      obtain ⟨h3a, h3b⟩ := h3
      cases op with
      | inj d u pw =>
        have hd : d.sum / (d.length : ℚ) ≤ s.target := of_decide_eq_true h3a
        have hex2 : execOps (inject s d u pw) rest = some s' := by
          simpa [execOps, execOp] using hex
        exact ih (inject s d u pw) s' h1 hd h3b hex2
      | stp =>
        have hfan : (stepCore s).1.curfan = 1 := by
          have hadj := delta_adj_nonneg s
          have hrp : rest_power s ≤ 0 := min_le_left _ _
          have hnd : ¬ 0 < delta s := by
            have hds : delta s ≤ 0 := by
              unfold delta
              linarith
            exact not_lt.mpr hds
          have hft : fanAfterTemp s ≤ 1 := by
            unfold fanAfterTemp
            rw [if_neg hnd, h1]
            linarith
          have hfbc : fanBeforeClamp s ≤ 1 := by
            unfold fanBeforeClamp
            linarith
          show clampFan (fanBeforeClamp s) = 1
          unfold clampFan
          rw [max_eq_right hfbc]
          exact min_eq_left (by norm_num)
        have hop : execOp s Op.stp = some (stepCore s).1 := by
          simp [execOp, step_eq_some]
        have hex2 : execOps (stepCore s).1 rest = some s' := by
          simpa [execOps, hop] using hex
        exact ih (stepCore s).1 s' hfan h2 h3b hex2

/-- Witness for C3 at concrete inputs: one step from the initial state, and
an inject of cool cores followed by a step from the clamped state. -/
theorem c3_fan_percent_in_range_witness :
    (1 ≤ (stepCore ctrlInit).1.curfan ∧ (stepCore ctrlInit).1.curfan ≤ 100) ∧
    c3End.curfan = 1 :=
  ⟨c3_fan_percent_in_range.1 ctrlInit (stepCore ctrlInit) (step_eq_some ctrlInit),
   c3_fan_percent_in_range.2 c3Ops c3Start c3End rfl
     (by norm_num [avgtemp, c3Start, ctrlInit])
     (by norm_num [c3Ops, opBelowTarget, c3Start, ctrlInit, List.all_cons])
     c3Ops_eval⟩

/-- C4: in every cycle (all cycles take the non-emergency branch) the
adjustment is min(abs(delta - trendAvg) / finetune, 3) with finetune 1 when
abs(delta) exceeds 5 and 2 otherwise; it is nonnegative, at most 3, added
when delta is positive and subtracted otherwise, with the power term and
clamp then applied to give the stored fan value. -/
theorem c4_nonemergency_adjustment (s : Ctrl) :
    0 ≤ min (|avgtemp s - s.target - tdelta s| / (if 5 < |avgtemp s - s.target| then 1 else 2)) 3 ∧
    min (|avgtemp s - s.target - tdelta s| / (if 5 < |avgtemp s - s.target| then 1 else 2)) 3 ≤ 3 ∧
    (step s).map (fun p => p.1.curfan) =
      some (clampFan ((if 0 < avgtemp s - s.target
          then s.curfan +
            min (|avgtemp s - s.target - tdelta s| / (if 5 < |avgtemp s - s.target| then 1 else 2)) 3
          else s.curfan -
            min (|avgtemp s - s.target - tdelta s| / (if 5 < |avgtemp s - s.target| then 1 else 2)) 3)
        + min 0 (s.curpower - 50 - s.cpu_power_level) / 10)) := by
  refine ⟨delta_adj_nonneg s, min_le_right _ _, ?_⟩
  rw [step_eq_some]
  rfl

/-- C5: each step appends the freshly computed delta and evicts the oldest
entry, keeping the trend buffer at its fixed capacity; every sequence of
calls from the initial state leaves it at exactly 8 entries. -/
theorem c5_trend_buffer_fifo :
    (∀ s p, step s = some p → s.thrend ≠ [] →
      p.1.thrend = s.thrend.tail ++ [delta s] ∧
        p.1.thrend.length = s.thrend.length) ∧
    (∀ ops s', execOps ctrlInit ops = some s' → s'.thrend.length = 8) := by
  constructor
  · intro s p hp hne
    rw [step_eq_some] at hp
    obtain rfl := Option.some.inj hp
    constructor
    · show (s.thrend ++ [delta s]).tail = s.thrend.tail ++ [delta s]
      exact tail_append_singleton s.thrend (delta s) hne
    · show ((s.thrend ++ [delta s]).tail).length = s.thrend.length
      simp
  · intro ops s' hex
    simpa [ctrlInit] using execOps_thrend_length ops ctrlInit s' hex

/-- Witness for C5 at concrete inputs: one step from the initial state. -/
theorem c5_trend_buffer_fifo_witness :
    ((stepCore ctrlInit).1.thrend = ctrlInit.thrend.tail ++ [delta ctrlInit] ∧
      (stepCore ctrlInit).1.thrend.length = ctrlInit.thrend.length) ∧
    c5End.thrend.length = 8 :=
  ⟨c5_trend_buffer_fifo.1 ctrlInit (stepCore ctrlInit) (step_eq_some ctrlInit)
     (by simp [ctrlInit]),
   c5_trend_buffer_fifo.2 [Op.stp] c5End c5Ops_eval⟩

/-- C6 counterexample: at the exact state of spec Example 1 the dispatched
percentage is int(10.5) = 10, not the claimed 11. -/
theorem c6_counterexample_dispatch :
    (step c6State).map Prod.snd = some 10 ∧
    (step c6State).map Prod.snd ≠ some 11 := by
  have h : (step c6State).map Prod.snd = some 10 := by
    rw [step_eq_some]
    norm_num [stepCore, run, clampFan, fanBeforeClamp, fanAfterTemp, rest_power, delta_adj,
      finetune, delta, tdelta, avgtemp, pyInt, c6State, abs_of_nonneg, abs_of_nonpos]
  refine ⟨h, ?_⟩
  rw [h]
  norm_num

/-- C6 amended: on Example 1 the code computes delta = 1, finetune = 2,
deltaAdj = 1/2, a zero power term, raises the internal fan value to 10.5,
and dispatches 10, the truncation (not rounding) of 10.5. -/
theorem c6_example_one_values :
    delta c6State = 1 ∧
    finetune c6State = 2 ∧
    delta_adj c6State = 1 / 2 ∧
    rest_power c6State = 0 ∧
    (step c6State).map (fun p => p.1.curfan) = some (21 / 2) ∧
    (step c6State).map Prod.snd = some 10 := by
  refine ⟨?_, ?_, ?_, by norm_num [rest_power, c6State], ?_, ?_⟩
  · norm_num [delta, avgtemp, c6State]
  · norm_num [finetune, delta, avgtemp, c6State]
  · norm_num [delta_adj, finetune, delta, tdelta, avgtemp, c6State,
      abs_of_nonneg, abs_of_nonpos]
  · rw [step_eq_some]
    norm_num [stepCore, run, clampFan, fanBeforeClamp, fanAfterTemp, rest_power, delta_adj,
      finetune, delta, tdelta, avgtemp, c6State, abs_of_nonneg, abs_of_nonpos]
  · rw [step_eq_some]
    norm_num [stepCore, run, clampFan, fanBeforeClamp, fanAfterTemp, rest_power, delta_adj,
      finetune, delta, tdelta, avgtemp, pyInt, c6State, abs_of_nonneg, abs_of_nonpos]

/-- C7: with everything else fixed, a cycle whose average temperature is
strictly above target never stores or dispatches a smaller fan percentage
than the cycle whose average temperature equals the target. -/
theorem c7_monotone_above_target :
    ∀ s d2 p q,
      avgtemp s = s.target →
      s.target < d2.sum / (d2.length : ℚ) →
      step s = some p →
      step { s with data := d2 } = some q →
      p.1.curfan ≤ q.1.curfan ∧ p.2 ≤ q.2 := by
  intro s d2 p q havg hgt hp hq
  rw [step_eq_some] at hp hq
  obtain rfl := Option.some.inj hp
  obtain rfl := Option.some.inj hq
  have hd0 : ¬ 0 < delta s := by
    unfold delta
    rw [havg]
    simp
  have hd2 : 0 < delta { s with data := d2 } := by
    show (0 : ℚ) < d2.sum / (d2.length : ℚ) - s.target
    linarith
  have h1 : fanAfterTemp s ≤ s.curfan := by
    unfold fanAfterTemp
    rw [if_neg hd0]
    linarith [delta_adj_nonneg s]
  have h2 : s.curfan ≤ fanAfterTemp { s with data := d2 } := by
    unfold fanAfterTemp
    rw [if_pos hd2]
    show s.curfan ≤ s.curfan + delta_adj { s with data := d2 }
    linarith [delta_adj_nonneg { s with data := d2 }]
  have hrest : rest_power { s with data := d2 } = rest_power s := rfl
  have hfbc : fanBeforeClamp s ≤ fanBeforeClamp { s with data := d2 } := by
    unfold fanBeforeClamp
    rw [hrest]
    linarith
  have hcl : clampFan (fanBeforeClamp s) ≤ clampFan (fanBeforeClamp { s with data := d2 }) :=
    clampFan_mono hfbc
  constructor
  · exact hcl
  · show pyInt (clampFan (fanBeforeClamp s)) ≤
      pyInt (clampFan (fanBeforeClamp { s with data := d2 }))
    exact pyInt_mono_of_nonneg (by linarith [one_le_clampFan (fanBeforeClamp s)]) hcl

/-- Witness for C7 at concrete inputs: eight cores at 55 versus two cores
at 60, target 55. -/
theorem c7_monotone_above_target_witness :
    (stepCore c7At).1.curfan ≤ (stepCore { c7At with data := [60, 60] }).1.curfan ∧
    (stepCore c7At).2 ≤ (stepCore { c7At with data := [60, 60] }).2 :=
  c7_monotone_above_target c7At [60, 60] (stepCore c7At)
    (stepCore { c7At with data := [60, 60] })
    (by norm_num [avgtemp, c7At])
    (by norm_num [c7At])
    (step_eq_some c7At)
    (step_eq_some { c7At with data := [60, 60] })

/-- C8: on a response holding the tokens 900 and 1000, get_fan_speed
returns 900: Python max over the matched strings is lexicographic, so the
code does not return the numeric maximum 1000 the claim (and the function's
own intent, given the int() conversion and the numeric 0 fallback)
describes. -/
theorem c8_fan_speed_string_max :
    findRPMTokens c8Out = ["900".toList, "1000".toList] ∧
    get_fan_speed c8Out = 900 ∧
    ((findRPMTokens c8Out).map digitsToNat).foldr max 0 = 1000 ∧
    get_fan_speed c8Out ≠ ((findRPMTokens c8Out).map digitsToNat).foldr max 0 := by
  decide

/-- C9: a failed management command is not recoverable in the code.  A
nonzero ipmitool exit is caught by send, but send never assigns the out
attribute, so the .out read raises AttributeError; a missing ipmitool
raises FileNotFoundError which the except clause does not match.  Either
exception escapes step (only a successful dispatch completes the cycle),
and the main loop has no handler, so the process crashes rather than
skipping the cycle. -/
theorem c9_dispatch_failure_uncaught (s : Ctrl) :
    stepD s SubprocResult.calledProcessError = Except.error PyExc.attributeError ∧
    stepD s SubprocResult.fileNotFoundError = Except.error PyExc.fileNotFoundError ∧
    ∀ o, stepD s (SubprocResult.success o) = Except.ok (stepCore s) := by
  refine ⟨rfl, rfl, fun o => ?_⟩
  show (if 68 < pyBoolToRat (npAny s.data) then Except.error PyExc.unboundLocalError
        else Except.ok (stepCore s)) = Except.ok (stepCore s)
  rw [if_neg (emergency_cond_false s.data)]

/-- C10: Server construction fails exactly when the host is given neither
as a parameter nor through the IDRAC_HOST environment variable; username
and password always resolve, defaulting to root and calvin. -/
theorem c10_fatal_iff_host_missing (h u p : Option String) (env : IdracEnv) :
    (serverInit h u p env = none ↔ h = none ∧ env.idrac_host = none) ∧
    serverInit (some "h") none none ⟨none, none, none⟩ = some ("h", "root", "calvin") := by
  constructor
  · cases h with
    | none =>
      cases henv : env.idrac_host with
      | none => cases u <;> cases p <;> simp [serverInit, henv]
      | some x => cases u <;> cases p <;> simp [serverInit, henv]
    | some hh => cases u <;> cases p <;> simp [serverInit]
  · rfl

end R710
